import Mathlib

/-!
Verification of the admission / queueing / retry / result-lifecycle core of
`bot/ai_generator/gemini_utils.py`.

The Python module is shallowly embedded below.  Pure computations (retry loop,
error classification, token estimate, identifier generation) become Lean
functions; the shared mutable state (`current_queue_size`, `request_queue`,
`request_results`, the worker task) becomes an explicit state record `SysState`
with a labelled step function `stepFn`, one label per atomic section between
cooperative yield points of the asyncio code.  The upstream service and the
random number generator are modelled as explicit oracle parameters.
-/

namespace GeminiUtils

/-- Substring test helper: `startsWithList sub l` is true when `sub` is an
initial segment of `l`.  Used to model Python's `in` on strings. -/
def startsWithList : List Char → List Char → Bool
  | [], _ => true
  | _ :: _, [] => false
  | a :: as, b :: bs => a == b && startsWithList as bs

/-- `hasSubList sub l` is true when `sub` occurs contiguously in `l`.
Models Python's `sub in s` on strings. -/
def hasSubList (sub : List Char) : List Char → Bool
  | [] => sub.isEmpty
  | c :: rest => startsWithList sub (c :: rest) || hasSubList sub rest

/-- `strContains s sub` models Python's `sub in s` for strings. -/
def strContains (s sub : String) : Bool :=
  hasSubList sub.toList s.toList

/-- Models Python's `str.lower()` (ASCII range, which covers every substring
the source compares against). -/
def pyLower (s : String) : String :=
  ⟨s.data.map Char.toLower⟩

/-- The Python exception classes raised by the core
(`ValueError`, `OverflowError`, `TimeoutError`, `RuntimeError`). -/
inductive ErrKind
  | valueError
  | overflowError
  | timeoutError
  | runtimeError
  deriving DecidableEq, Repr

/-- `type(e).__name__` for each modelled exception class
(`gemini_utils.py` line 227). -/
def errorTypeName : ErrKind → String
  | ErrKind.valueError => "ValueError"
  | ErrKind.overflowError => "OverflowError"
  | ErrKind.timeoutError => "TimeoutError"
  | ErrKind.runtimeError => "RuntimeError"

/-- Observable outcome of one upstream generation attempt: either the
response text, or the text of the exception raised (`str(e)`). -/
inductive Outcome
  | success (text : String)
  | failure (msg : String)
  deriving DecidableEq, Repr

/-- Result of one `process_prompt_direct` invocation: either the answer with
its token estimate, or the raised exception; `attempts` counts how many
iterations of the retry loop ran. -/
inductive DirectResult
  | ok (answer : String) (tokens : Nat) (attempts : Nat)
  | err (kind : ErrKind) (msg : String) (attempts : Nat)
  deriving DecidableEq, Repr

/-- Number of retry-loop iterations an invocation performed. -/
def attemptsOf : DirectResult → Nat
  | DirectResult.ok _ _ n => n
  | DirectResult.err _ _ n => n

/-- `MAX_RETRIES = 3` (`gemini_utils.py` line 65). -/
def MAX_RETRIES : Nat := 3

/-- `BASE_DELAY = 2` (`gemini_utils.py` line 67). -/
def BASE_DELAY : Nat := 2

/-- `MAX_QUEUE_SIZE = 100` (`gemini_utils.py` line 80). -/
def MAX_QUEUE_SIZE : Nat := 100

/-- `MAX_CONCURRENT_REQUESTS = len(api_keys) * 2 if api_keys else 3`
(`gemini_utils.py` line 69). -/
def MAX_CONCURRENT_REQUESTS (api_keys : List String) : Nat :=
  if api_keys.isEmpty then 3 else api_keys.length * 2

/-- Message of the `ValueError` raised by `get_random_api_key` when the key
list is empty (`gemini_utils.py` line 43). -/
def noKeysMsg : String := "No Gemini API keys available"

/-- `get_random_api_key` (`gemini_utils.py` lines 41-44): raises `ValueError`
when no keys are configured, otherwise returns a random key; the random
choice is modelled by the index oracle `pick`. -/
def get_random_api_key (api_keys : List String) (pick : Nat) :
    Except String String :=
  if api_keys.isEmpty then Except.error noKeysMsg
  else Except.ok (api_keys.getD (pick % api_keys.length) "")

/-- Message of the `ValueError` raised on a "too many tokens" upstream error
(`gemini_utils.py` line 170). -/
def tooManyTokensMsg : String := "Too many tokens to make completion"

/-- Message of the terminal `OverflowError` (`gemini_utils.py` line 186). -/
def overloadedFinalMsg : String :=
  "That model is currently overloaded with other requests."

/-- Message of the terminal `TimeoutError` for upstream timeouts
(`gemini_utils.py` line 189). -/
def upstreamTimeoutMsg : String :=
  "Request to the model timed out. Please try again."

/-- Message of the terminal `RuntimeError` (`gemini_utils.py` line 192). -/
def unknownFinalMsg (m : String) : String :=
  "Error with Gemini API after " ++ toString MAX_RETRIES ++ " attempts: " ++ m

/-- Final-attempt error classification (`gemini_utils.py` lines 183-192):
the lowered exception text is matched against fixed substrings, in the
source's order, to pick the exception raised after retry exhaustion. -/
def classifyFinal (m : String) : ErrKind × String :=
  let error_message := pyLower m
  if strContains error_message "overloaded" || strContains error_message "rate limit" ||
      strContains error_message "quota" then
    (ErrKind.overflowError, overloadedFinalMsg)
  else if strContains error_message "timeout" || strContains error_message "deadline" then
    (ErrKind.timeoutError, upstreamTimeoutMsg)
  else
    (ErrKind.runtimeError, unknownFinalMsg m)

/-- The effective outcome of try-block iteration `i` of
`process_prompt_direct`: when the key list is empty, `get_random_api_key`
(line 97) raises `ValueError` inside the `try`, which the `except` catches
like any upstream failure; otherwise the upstream call's outcome (the
`upstream` oracle) is observed. -/
def effAttempt (api_keys : List String) (upstream : Nat → Outcome) (i : Nat) : Outcome :=
  if api_keys.isEmpty then Outcome.failure noKeysMsg else upstream i

/-- The `while answer is None and retry_count < MAX_RETRIES` loop of
`process_prompt_direct` (`gemini_utils.py` lines 94-192).  `fuel` is a
structural-recursion bound kept equal to `MAX_RETRIES - retry_count`; since
the code re-enters the loop only under `retry_count + 1 < MAX_RETRIES`, the
zero-fuel branch is unreachable from `process_prompt_direct`.
Branches, in source order: a successful attempt returns the answer and the
token estimate `len(message) // 4 + len(answer) // 4` (line 157); a failure
increments `retry_count`, re-raises `ValueError` on "too many tokens"
(lines 168-170), and otherwise either rotates the credential and retries —
where with an empty key list the rotation call `get_random_api_key()` at
line 174 raises `ValueError` outside any `try`, aborting the invocation —
or, with the budget exhausted, raises the classified terminal error. -/
def runDirectLoop (api_keys : List String) (upstream : Nat → Outcome)
    (message : String) : Nat → Nat → DirectResult
  | _, 0 => DirectResult.err ErrKind.runtimeError "" 0
  | retry_count, fuel + 1 =>
    match effAttempt api_keys upstream retry_count with
    | Outcome.success answer =>
        DirectResult.ok answer (message.length / 4 + answer.length / 4) (retry_count + 1)
    | Outcome.failure m =>
        let error_message := pyLower m
        if strContains error_message "too many tokens" then
          DirectResult.err ErrKind.valueError tooManyTokensMsg (retry_count + 1)
        else if retry_count + 1 < MAX_RETRIES then
          if api_keys.isEmpty then
            DirectResult.err ErrKind.valueError noKeysMsg (retry_count + 1)
          else
            runDirectLoop api_keys upstream message (retry_count + 1) fuel
        else
          DirectResult.err (classifyFinal m).1 (classifyFinal m).2 (retry_count + 1)

/-- `process_prompt_direct` (`gemini_utils.py` lines 87-192), with the
upstream service abstracted as a per-attempt outcome oracle. -/
def process_prompt_direct (api_keys : List String) (upstream : Nat → Outcome)
    (message : String) : DirectResult :=
  runDirectLoop api_keys upstream message 0 MAX_RETRIES

/-- Lifecycle status of a `request_results` entry: `"queued"` (line 302),
`"completed"` with the result tuple (lines 214-219), `"error"` with the
exception class and text (lines 223-229), or `"timeout"` (line 347). -/
inductive Status
  | queued
  | completed (answer : String) (tokens : Nat)
  | error (kind : ErrKind) (msg : String)
  | timeout
  deriving DecidableEq, Repr

/-- Terminal statuses per the result lifecycle: everything except `queued`. -/
def Status.isTerminal : Status → Bool
  | Status.queued => false
  | Status.completed _ _ => true
  | Status.error _ _ => true
  | Status.timeout => true

/-- The statuses on which the waiting facade collects and deletes a record:
`status in ["completed", "error"]` (`gemini_utils.py` line 316). -/
def Status.isPolled : Status → Bool
  | Status.completed _ _ => true
  | Status.error _ _ => true
  | _ => false

/-- The record written by the queue worker for one processed request
(`gemini_utils.py` lines 210-229). -/
def statusOfResult : DirectResult → Status
  | DirectResult.ok answer tokens _ => Status.completed answer tokens
  | DirectResult.err kind msg _ => Status.error kind msg

/-- A queued request tuple `(request_id, message, priority)`
(`gemini_utils.py` line 296). -/
structure Request where
  id : String
  payload : String
  priority : Nat
  deriving DecidableEq, Repr

/-- `request_id = f"req_{int(time.time())}_{random.randint(1000, 9999)}"`
(`gemini_utils.py` line 287); `t` is the integral clock reading and `rand`
the drawn random integer. -/
def genRequestId (t rand : Nat) : String :=
  "req_" ++ toString t ++ "_" ++ toString rand

/-- Lookup in the `request_results` dict, modelled as an association list
with unique keys. -/
def lookupRes : List (String × Status) → String → Option Status
  | [], _ => none
  | (k, v) :: rest, id => if k == id then some v else lookupRes rest id

/-- Dict assignment `request_results[id] = v`: replaces the value when the
key is present, appends the entry otherwise. -/
def insertRes : List (String × Status) → String → Status → List (String × Status)
  | [], id, v => [(id, v)]
  | (k, w) :: rest, id, v =>
      if k == id then (k, v) :: rest else (k, w) :: insertRes rest id v

/-- `del request_results[id]`: removes the entry with the given key. -/
def eraseRes : List (String × Status) → String → List (String × Status)
  | [], _ => []
  | (k, w) :: rest, id => if k == id then rest else (k, w) :: eraseRes rest id

/-- Phases of the single queue-worker loop (`gemini_utils.py` lines 202-236):
idle at `request_queue.get()`, processing one request through
`process_prompt_direct`, or in the fixed `asyncio.sleep(0.5)` pacing pause. -/
inductive WorkerPhase
  | idle
  | processing (r : Request)
  | pausing
  deriving DecidableEq, Repr

/-- Identifier of the request currently being processed, if any. -/
def inFlightIds : WorkerPhase → List String
  | WorkerPhase.processing r => [r.id]
  | _ => []

/-- The module's shared mutable state: `current_queue_size`, the FIFO
`request_queue` (head = next to be dequeued), the `request_results` dict,
and the worker task's phase.  `admitted` and `written` are history
variables recording, respectively, the identifiers in admission order and
the identifiers of worker terminal writes in write order; they do not
influence any behavior and exist only to state ordering properties. -/
structure SysState where
  queueSize : Nat
  queue : List Request
  results : List (String × Status)
  worker : WorkerPhase
  admitted : List String
  written : List String
  deriving DecidableEq, Repr

/-- The state at module start: empty queue, empty result store, worker at
its `request_queue.get()`. -/
def initState : SysState :=
  { queueSize := 0, queue := [], results := [], worker := WorkerPhase.idle,
    admitted := [], written := [] }

/-- Message of the `OverflowError` raised when the queue is full
(`gemini_utils.py` line 292). -/
def queueFullMsg : String :=
  "Tizim hozir juda band. Iltimos, keyinroq qayta urinib ko\x27ring."

/-- The admission section of `process_prompt` (`gemini_utils.py` lines
286-306), which runs without any suspension point: generate the identifier,
reject with `OverflowError` when `current_queue_size >= MAX_QUEUE_SIZE`
(leaving all state untouched), otherwise increment the counter, enqueue
`(request_id, message, priority)`, and only then create the `"queued"`
result entry.  Returns the new state and either the identifier or the
raised error. -/
def process_prompt_submit (s : SysState) (t rand : Nat) (message : String)
    (priority : Nat) : SysState × Except (ErrKind × String) String :=
  let request_id := genRequestId t rand
  if s.queueSize ≥ MAX_QUEUE_SIZE then
    (s, Except.error (ErrKind.overflowError, queueFullMsg))
  else
    ({ s with
        queueSize := s.queueSize + 1,
        queue := s.queue ++ [{ id := request_id, payload := message, priority := priority }],
        results := insertRes s.results request_id Status.queued,
        admitted := s.admitted ++ [request_id] },
      Except.ok request_id)

/-- Labels for the atomic sections of the concurrent system, one per stretch
of code between cooperative yield points: a producer's admission call, the
worker's dequeue (lines 205-206), the worker's result write after
`process_prompt_direct` returns (lines 210-229), the end of the worker's
0.5 s pacing pause (line 236), a waiting producer marking its record
`"timeout"` (lines 346-347), a waiting producer observing a terminal record
and deleting it (lines 316-320), and the reaper deleting a stale record
(lines 388-389). -/
inductive SLabel
  | submitL (t rand : Nat) (message : String) (priority : Nat)
  | takeL
  | finishL
  | pauseL
  | timeoutL (id : String)
  | collectL (id : String)
  | reapL (id : String)
  deriving DecidableEq, Repr

/-- One atomic step of the system.  `api_keys` and `upstream` parametrize the
worker's call to `process_prompt_direct`; `upstream` maps a request payload
and an attempt index to that attempt's outcome.  Returns `none` when the
label is not enabled in the given state. -/
def stepFn (api_keys : List String) (upstream : String → Nat → Outcome) :
    SLabel → SysState → Option SysState
  | SLabel.submitL t rand message priority, s =>
      some (process_prompt_submit s t rand message priority).1
  | SLabel.takeL, s =>
      match s.worker, s.queue with
      | WorkerPhase.idle, r :: rest =>
          some { s with queue := rest, queueSize := s.queueSize - 1,
                        worker := WorkerPhase.processing r }
      | _, _ => none
  | SLabel.finishL, s =>
      match s.worker with
      | WorkerPhase.processing r =>
          some { s with
              results := insertRes s.results r.id
                (statusOfResult (process_prompt_direct api_keys (upstream r.payload) r.payload)),
              worker := WorkerPhase.pausing,
              written := s.written ++ [r.id] }
      | _ => none
  | SLabel.pauseL, s =>
      match s.worker with
      | WorkerPhase.pausing => some { s with worker := WorkerPhase.idle }
      | _ => none
  | SLabel.timeoutL id, s =>
      match lookupRes s.results id with
      | some _ => some { s with results := insertRes s.results id Status.timeout }
      | none => some s
  | SLabel.collectL id, s =>
      match lookupRes s.results id with
      | some st =>
          if st.isPolled then some { s with results := eraseRes s.results id } else none
      | none => none
  | SLabel.reapL id, s => some { s with results := eraseRes s.results id }

/-- States reachable from module start by any interleaving of producer,
worker, waiter, and reaper steps. -/
inductive Reachable (api_keys : List String) (upstream : String → Nat → Outcome) :
    SysState → Prop
  | init : Reachable api_keys upstream initState
  | step (s s' : SysState) (l : SLabel) :
      Reachable api_keys upstream s → stepFn api_keys upstream l s = some s' →
      Reachable api_keys upstream s'

/-- The local-wait timeout raise of `process_prompt`
(`gemini_utils.py` line 349): exception class and message. -/
def facadeLocalTimeout (timeout : Nat) : ErrKind × String :=
  (ErrKind.timeoutError,
    "So\x27rov vaqti tugadi (" ++ toString timeout ++
      " soniya). Iltimos, keyinroq qayta urinib ko\x27ring.")

/-- The re-raise performed by the waiting facade when it observes an
`"error"` record (`gemini_utils.py` lines 322-334): the stored
`error_type` name selects the exception class, the stored text is reused. -/
def facadeRethrow (error_type : String) (msg : String) : ErrKind × String :=
  if error_type == "ValueError" then (ErrKind.valueError, msg)
  else if error_type == "OverflowError" then (ErrKind.overflowError, msg)
  else if error_type == "TimeoutError" then (ErrKind.timeoutError, msg)
  else (ErrKind.runtimeError, msg)

/-- An attempt outcome classified `PayloadTooLarge` by the source: a failure
whose lowered text contains `"too many tokens"` (`gemini_utils.py` line 168). -/
def isPTLOutcome : Outcome → Bool
  | Outcome.failure m => strContains (pyLower m) "too many tokens"
  | Outcome.success _ => false

/-- An attempt outcome the source treats as retryable: any failure other
than the `"too many tokens"` one. -/
def isRetryableOutcome : Outcome → Bool
  | Outcome.failure m => !(strContains (pyLower m) "too many tokens")
  | Outcome.success _ => false

/-- The retry loop performs at most `retry_count + fuel` loop iterations. -/
lemma attempts_runDirectLoop_le (api_keys : List String) (upstream : Nat → Outcome)
    (message : String) :
    ∀ fuel rc, attemptsOf (runDirectLoop api_keys upstream message rc fuel) ≤ rc + fuel := by
  intro fuel
  induction fuel with
  | zero => intro rc; simp [runDirectLoop, attemptsOf]
  | succ fuel ih =>
      intro rc
      simp only [runDirectLoop]
      split
      · simp [attemptsOf]
      · split
        · simp [attemptsOf]
        · split
          · split
            · simp [attemptsOf]
            · exact le_trans (ih (rc + 1)) (by omega)
          · simp [attemptsOf]

/-- If every attempt before `i` fails retryably and attempt `i` is classified
`PayloadTooLarge`, the loop raises `ValueError` right after attempt `i`. -/
lemma runLoop_ptl (api_keys : List String) (upstream : Nat → Outcome)
    (message : String) (hk : api_keys ≠ []) :
    ∀ fuel rc i, rc + fuel = MAX_RETRIES → rc ≤ i → i < MAX_RETRIES →
    (∀ j, rc ≤ j → j < i → isRetryableOutcome (effAttempt api_keys upstream j) = true) →
    isPTLOutcome (effAttempt api_keys upstream i) = true →
    runDirectLoop api_keys upstream message rc fuel
      = DirectResult.err ErrKind.valueError tooManyTokensMsg (i + 1) := by
  have hkempty : api_keys.isEmpty = false := by
    cases api_keys with
    | nil => exact absurd rfl hk
    | cons a as => rfl
  intro fuel
  induction fuel with
  | zero =>
      intro rc i h1 h2 h3 _ _
      simp only [MAX_RETRIES] at h1 h3
      omega
  | succ fuel ih =>
      intro rc i h1 h2 h3 hret hptl
      by_cases hri : rc = i
      · subst hri
        rcases hatt : effAttempt api_keys upstream rc with text | m
        · rw [hatt] at hptl
          simp [isPTLOutcome] at hptl
        · rw [hatt] at hptl
          simp only [isPTLOutcome] at hptl
          simp only [runDirectLoop, hatt]
          simp [hptl]
      · have hlt : rc < i := lt_of_le_of_ne h2 hri
        have hfuel : 1 ≤ fuel := by
          simp only [MAX_RETRIES] at h1 h3
          omega
        have hr := hret rc le_rfl hlt
        rcases hatt : effAttempt api_keys upstream rc with text | m
        · rw [hatt] at hr
          simp [isRetryableOutcome] at hr
        · rw [hatt] at hr
          simp only [isRetryableOutcome, Bool.not_eq_true'] at hr
          have hguard : rc + 1 < MAX_RETRIES := by
            simp only [MAX_RETRIES] at h1 h3 ⊢
            omega
          simp only [runDirectLoop, hatt, hr, Bool.false_eq_true, if_false, hguard,
            if_true, hkempty]
          exact ih (rc + 1) i (by omega) hlt h3
            (fun j hj1 hj2 => hret j (by omega) hj2) hptl

/-- Any successful run of the retry loop carries the token estimate
`len(message) // 4 + len(answer) // 4` of `gemini_utils.py` line 157. -/
lemma runLoop_tokens (api_keys : List String) (upstream : Nat → Outcome)
    (message : String) :
    ∀ fuel rc answer tokens n,
    runDirectLoop api_keys upstream message rc fuel = DirectResult.ok answer tokens n →
    tokens = message.length / 4 + answer.length / 4 := by
  intro fuel
  induction fuel with
  | zero =>
      intro rc a t n h
      simp [runDirectLoop] at h
  | succ fuel ih =>
      intro rc a t n h
      simp only [runDirectLoop] at h
      split at h
      · injection h with h1 h2 h3
        subst h1
        exact h2.symm
      · split at h
        · simp at h
        · split at h
          · split at h
            · simp at h
            · exact ih _ _ _ _ h
          · simp at h

/-- Events on the counting semaphore `request_semaphore`
(`gemini_utils.py` line 71), in chronological order. -/
inductive SemEvent
  | acquire
  | release
  deriving DecidableEq, Repr

/-- `semValidFrom cap cur es` holds when, starting from `cur` outstanding
permits, the event sequence `es` respects `asyncio.Semaphore(cap)`
semantics: an acquire completes only while fewer than `cap` permits are
outstanding (otherwise the acquirer stays suspended and no acquire event
occurs), and a release only while some permit is outstanding. -/
def semValidFrom (cap : Nat) : Nat → List SemEvent → Bool
  | _, [] => true
  | cur, SemEvent.acquire :: es => decide (cur < cap) && semValidFrom cap (cur + 1) es
  | cur, SemEvent.release :: es => decide (0 < cur) && semValidFrom cap (cur - 1) es

/-- Outstanding permits after running the events from `cur` outstanding. -/
def semHeldFrom : Nat → List SemEvent → Nat
  | cur, [] => cur
  | cur, SemEvent.acquire :: es => semHeldFrom (cur + 1) es
  | cur, SemEvent.release :: es => semHeldFrom (cur - 1) es

/-- The events of one `process_prompt_direct` invocation as seen by the
semaphore: `async with request_semaphore` (line 93) acquires one permit,
the whole retry loop of `n` attempts runs inside the `with` block, and the
permit is released when the block exits. -/
inductive InvEvent
  | acqE
  | attemptE (i : Nat)
  | relE
  deriving DecidableEq, Repr

/-- Whether an invocation event is the permit acquisition. -/
def InvEvent.isAcq : InvEvent → Bool
  | InvEvent.acqE => true
  | _ => false

/-- Whether an invocation event is the permit release. -/
def InvEvent.isRel : InvEvent → Bool
  | InvEvent.relE => true
  | _ => false

/-- The event sequence of one retry-coordinator invocation that performs
`n` attempts: acquire, the attempts, release — the structure of
`process_prompt_direct`'s `async with request_semaphore:` block. -/
def invocationEvents (n : Nat) : List InvEvent :=
  InvEvent.acqE :: ((List.range n).map InvEvent.attemptE ++ [InvEvent.relE])

/-- Permits this invocation holds after a sequence of its own events. -/
def invHeld (l : List InvEvent) : Nat :=
  (l.filter InvEvent.isAcq).length - (l.filter InvEvent.isRel).length

/-- Permit-count safety of the semaphore: along any valid event sequence,
the number of outstanding permits after any of its initial segments never
exceeds the capacity. -/
lemma semHeld_take_le (cap : Nat) :
    ∀ (es : List SemEvent) (cur k : Nat), cur ≤ cap → semValidFrom cap cur es = true →
    semHeldFrom cur (es.take k) ≤ cap := by
  intro es
  induction es with
  | nil =>
      intro cur k h _
      simpa [semHeldFrom] using h
  | cons e es ih =>
      intro cur k h hv
      cases k with
      | zero => simpa [semHeldFrom] using h
      | succ k =>
          cases e with
          | acquire =>
              simp only [semValidFrom, Bool.and_eq_true, decide_eq_true_eq] at hv
              simpa [List.take_succ_cons, semHeldFrom] using ih (cur + 1) k (by omega) hv.2
          | release =>
              simp only [semValidFrom, Bool.and_eq_true, decide_eq_true_eq] at hv
              simpa [List.take_succ_cons, semHeldFrom] using ih (cur - 1) k (by omega) hv.2

/-- Through every instant of an `n`-attempt invocation that lies at or after
the acquisition and strictly before the release, the invocation holds
exactly one permit. -/
lemma invHeld_take_eq_one (n k : Nat) (h1 : 1 ≤ k) (h2 : k ≤ n + 1) :
    invHeld ((invocationEvents n).take k) = 1 := by
  obtain ⟨k', rfl⟩ : ∃ j, k = j + 1 := ⟨k - 1, by omega⟩
  have hlen : k' ≤ ((List.range n).map InvEvent.attemptE).length := by
    simp only [List.length_map, List.length_range]
    omega
  simp only [invocationEvents, List.take_succ_cons]
  rw [List.take_append_of_le_length hlen, ← List.map_take]
  have hacq : ∀ L : List Nat, (L.map InvEvent.attemptE).filter InvEvent.isAcq = [] := by
    intro L
    induction L with
    | nil => rfl
    | cons a as ihh => simp [InvEvent.isAcq, ihh]
  have hrel : ∀ L : List Nat, (L.map InvEvent.attemptE).filter InvEvent.isRel = [] := by
    intro L
    induction L with
    | nil => rfl
    | cons a as ihh => simp [InvEvent.isRel, ihh]
  simp only [invHeld, List.filter_cons, hacq, hrel]
  simp [InvEvent.isAcq, InvEvent.isRel]

/-- Keys of the modelled `request_results` dict. -/
def keysOf (m : List (String × Status)) : List String := m.map Prod.fst

lemma lookup_insert (m : List (String × Status)) (k : String) (v : Status) (id : String) :
    lookupRes (insertRes m k v) id = if k = id then some v else lookupRes m id := by
  induction m with
  | nil => by_cases h : k = id <;> simp [insertRes, lookupRes, h]
  | cons hd tl ih =>
      obtain ⟨k', w⟩ := hd
      by_cases h : k' = k
      · subst h
        by_cases h2 : k' = id <;> simp [insertRes, lookupRes, h2]
      · by_cases h2 : k' = id
        · subst h2
          simp [insertRes, lookupRes, h, Ne.symm h]
        · simp [insertRes, lookupRes, h, h2, ih]

lemma lookup_erase_ne (m : List (String × Status)) (j id : String) (h : j ≠ id) :
    lookupRes (eraseRes m j) id = lookupRes m id := by
  induction m with
  | nil => simp [eraseRes]
  | cons hd tl ih =>
      obtain ⟨k, w⟩ := hd
      by_cases hk : k = j
      · subst hk
        simp [eraseRes, lookupRes, h]
      · simp [eraseRes, lookupRes, hk, ih]

lemma notMem_lookup (m : List (String × Status)) (id : String)
    (h : id ∉ keysOf m) : lookupRes m id = none := by
  induction m with
  | nil => simp [lookupRes]
  | cons hd tl ih =>
      obtain ⟨k, w⟩ := hd
      simp only [keysOf, List.map_cons, List.mem_cons] at h
      push_neg at h
      simp [lookupRes, Ne.symm h.1, ih (by simpa [keysOf] using h.2)]

lemma nodup_lookup_erase_self (m : List (String × Status)) (id : String)
    (h : (keysOf m).Nodup) : lookupRes (eraseRes m id) id = none := by
  induction m with
  | nil => simp [eraseRes, lookupRes]
  | cons hd tl ih =>
      obtain ⟨k, w⟩ := hd
      simp only [keysOf, List.map_cons, List.nodup_cons] at h
      by_cases hk : k = id
      · subst hk
        simp only [eraseRes, beq_self_eq_true, if_true]
        exact notMem_lookup tl k h.1
      · simp [eraseRes, lookupRes, hk, ih h.2]

lemma mem_keys_insert (m : List (String × Status)) (k : String) (v : Status)
    (x : String) (h : x ∈ keysOf (insertRes m k v)) : x ∈ keysOf m ∨ x = k := by
  induction m with
  | nil => simpa [insertRes, keysOf] using h
  | cons hd tl ih =>
      obtain ⟨k', w⟩ := hd
      by_cases hk : k' = k
      · subst hk
        simp only [insertRes, beq_self_eq_true, if_true, keysOf, List.map_cons,
          List.mem_cons] at h ⊢
        exact Or.inl h
      · simp only [insertRes, beq_iff_eq, hk, if_false, keysOf, List.map_cons,
          List.mem_cons] at h
        rcases h with h | h
        · exact Or.inl (by simp [keysOf, h])
        · rcases ih h with h2 | h2
          · exact Or.inl (by simp [keysOf] at h2 ⊢; exact Or.inr h2)
          · exact Or.inr h2

lemma nodup_keys_insert (m : List (String × Status)) (k : String) (v : Status)
    (h : (keysOf m).Nodup) : (keysOf (insertRes m k v)).Nodup := by
  induction m with
  | nil => simp [insertRes, keysOf]
  | cons hd tl ih =>
      obtain ⟨k', w⟩ := hd
      simp only [keysOf, List.map_cons, List.nodup_cons] at h
      by_cases hk : k' = k
      · subst hk
        simp only [insertRes, beq_self_eq_true, if_true, keysOf, List.map_cons,
          List.nodup_cons]
        exact ⟨h.1, h.2⟩
      · simp only [insertRes, beq_iff_eq, hk, if_false, keysOf, List.map_cons,
          List.nodup_cons]
        refine ⟨fun hmem => ?_, ih h.2⟩
        rcases mem_keys_insert tl k v k' hmem with h2 | h2
        · exact h.1 (by simpa [keysOf] using h2)
        · exact hk h2

lemma erase_sublist (m : List (String × Status)) (j : String) :
    (eraseRes m j).Sublist m := by
  induction m with
  | nil => simp [eraseRes]
  | cons hd tl ih =>
      obtain ⟨k, w⟩ := hd
      by_cases hk : k = j
      · subst hk
        simp only [eraseRes, beq_self_eq_true, if_true]
        exact List.sublist_cons_self (k, w) tl
      · simpa [eraseRes, hk] using ih.cons₂ (k, w)

lemma nodup_keys_erase (m : List (String × Status)) (j : String)
    (h : (keysOf m).Nodup) : (keysOf (eraseRes m j)).Nodup :=
  ((erase_sublist m j).map Prod.fst).nodup h

/-- Dict keys of `request_results` stay pairwise distinct under every step:
the store is a Python dict, so no two live entries share an identifier. -/
lemma reachable_nodup_keys (api_keys : List String) (upstream : String → Nat → Outcome)
    (s : SysState) (h : Reachable api_keys upstream s) : (keysOf s.results).Nodup := by
  induction h with
  | init => simp [initState, keysOf]
  | step s s' l hr hstep ih =>
      cases l with
      | submitL t rand message priority =>
          simp only [stepFn] at hstep
          injection hstep with hstep
          subst hstep
          simp only [process_prompt_submit]
          split
          · exact ih
          · exact nodup_keys_insert _ _ _ ih
      | takeL =>
          simp only [stepFn] at hstep
          split at hstep
          · injection hstep with hstep
            subst hstep
            exact ih
          · exact absurd hstep (by simp)
      | finishL =>
          simp only [stepFn] at hstep
          split at hstep
          · injection hstep with hstep
            subst hstep
            exact nodup_keys_insert _ _ _ ih
          · exact absurd hstep (by simp)
      | pauseL =>
          simp only [stepFn] at hstep
          split at hstep
          · injection hstep with hstep
            subst hstep
            exact ih
          · exact absurd hstep (by simp)
      | timeoutL id =>
          simp only [stepFn] at hstep
          split at hstep
          · injection hstep with hstep
            subst hstep
            exact nodup_keys_insert _ _ _ ih
          · injection hstep with hstep
            subst hstep
            exact ih
      | collectL id =>
          simp only [stepFn] at hstep
          split at hstep
          · split at hstep
            · injection hstep with hstep
              subst hstep
              exact nodup_keys_erase _ _ ih
            · exact absurd hstep (by simp)
          · exact absurd hstep (by simp)
      | reapL id =>
          simp only [stepFn] at hstep
          injection hstep with hstep
          subst hstep
          exact nodup_keys_erase _ _ ih

/-- Admission-order invariant: the identifiers admitted so far are exactly
the worker's terminal writes, then the in-flight request, then the queue
contents — in that order.  The worker therefore consumes, and writes
terminal records for, admitted requests strictly in FIFO admission order. -/
lemma reachable_order (api_keys : List String) (upstream : String → Nat → Outcome)
    (s : SysState) (h : Reachable api_keys upstream s) :
    s.admitted = s.written ++ inFlightIds s.worker ++ s.queue.map Request.id := by
  induction h with
  | init => simp [initState, inFlightIds]
  | step s s' l hr hstep ih =>
      cases l with
      | submitL t rand message priority =>
          simp only [stepFn] at hstep
          injection hstep with hstep
          subst hstep
          simp only [process_prompt_submit]
          split
          · exact ih
          · simp only [List.map_append, List.map_cons, List.map_nil]
            rw [ih]
            simp [List.append_assoc]
      | takeL =>
          simp only [stepFn] at hstep
          split at hstep
          · next r rest hw hq =>
              injection hstep with hstep
              subst hstep
              rw [ih, hw, hq]
              simp [inFlightIds]
          · exact absurd hstep (by simp)
      | finishL =>
          simp only [stepFn] at hstep
          split at hstep
          · next r hw =>
              injection hstep with hstep
              subst hstep
              rw [ih, hw]
              simp [inFlightIds]
          · exact absurd hstep (by simp)
      | pauseL =>
          simp only [stepFn] at hstep
          split at hstep
          · next hw =>
              injection hstep with hstep
              subst hstep
              rw [ih, hw]
              simp [inFlightIds]
          · exact absurd hstep (by simp)
      | timeoutL id =>
          simp only [stepFn] at hstep
          split at hstep
          · injection hstep with hstep
            subst hstep
            exact ih
          · injection hstep with hstep
            subst hstep
            exact ih
      | collectL id =>
          simp only [stepFn] at hstep
          split at hstep
          · split at hstep
            · injection hstep with hstep
              subst hstep
              exact ih
            · exact absurd hstep (by simp)
          · exact absurd hstep (by simp)
      | reapL id =>
          simp only [stepFn] at hstep
          injection hstep with hstep
          subst hstep
          exact ih

/-- `n` successive admissions from module start, with distinct identifiers
(clock reading 0, random draws 1000, 1001, …, all inside `randint`'s
1000–9999 range). -/
def fillQueue : Nat → SysState
  | 0 => initState
  | n + 1 => (process_prompt_submit (fillQueue n) 0 (1000 + n) "p" 1).1

/-- A state whose tracked queue-size counter sits exactly at capacity. -/
def cappedState : SysState := { initState with queueSize := MAX_QUEUE_SIZE }

/-- C1: a `process_prompt` call with the tracked queue size strictly below
`MAX_QUEUE_SIZE = 100` is admitted (the identifier is returned and the
counter increments); with the tracked size at or above capacity it raises
`OverflowError` (the Overloaded / queue-full error) immediately and leaves
the entire state — in particular the tracked queue size — unchanged. -/
theorem C1_submit_admission (s : SysState) (t rand : Nat) (message : String)
    (priority : Nat) :
    (s.queueSize < MAX_QUEUE_SIZE →
      (process_prompt_submit s t rand message priority).2 = Except.ok (genRequestId t rand) ∧
      (process_prompt_submit s t rand message priority).1.queueSize = s.queueSize + 1) ∧
    (s.queueSize ≥ MAX_QUEUE_SIZE →
      (process_prompt_submit s t rand message priority).2
        = Except.error (ErrKind.overflowError, queueFullMsg) ∧
      (process_prompt_submit s t rand message priority).1 = s) := by
  constructor
  · intro h
    simp only [process_prompt_submit]
    rw [if_neg (by omega)]
    exact ⟨rfl, rfl⟩
  · intro h
    simp only [process_prompt_submit]
    rw [if_pos h]
    exact ⟨rfl, rfl⟩

/-- C1 witness: both branches at concrete states — the empty initial state
admits, a state with the counter at 100 rejects unchanged. -/
theorem C1_submit_admission_witness :
    ((process_prompt_submit initState 0 1000 "p" 1).2 = Except.ok (genRequestId 0 1000) ∧
      (process_prompt_submit initState 0 1000 "p" 1).1.queueSize = initState.queueSize + 1) ∧
    ((process_prompt_submit cappedState 1 1000 "p" 1).2
        = Except.error (ErrKind.overflowError, queueFullMsg) ∧
      (process_prompt_submit cappedState 1 1000 "p" 1).1 = cappedState) :=
  ⟨(C1_submit_admission initState 0 1000 "p" 1).1 (by decide),
    (C1_submit_admission cappedState 1 1000 "p" 1).2 (by decide)⟩

set_option maxRecDepth 4000 in
/-- C6 counterexample: after 100 genuine admissions from module start the
tracked size is exactly at capacity; the 101st submission is rejected with
the queue-full `OverflowError` and its identifier has NO result entry at
all — the code checks the capacity (line 290) and raises before ever
creating the `"queued"` record (line 301), so a rejected submission does
not leave a Queued `ResultRecord`, contradicting the claim. -/
theorem C6_rejected_submission_counterexample :
    (fillQueue 100).queueSize = MAX_QUEUE_SIZE ∧
    (process_prompt_submit (fillQueue 100) 1 1000 "p" 1).2
      = Except.error (ErrKind.overflowError, queueFullMsg) ∧
    lookupRes ((process_prompt_submit (fillQueue 100) 1 1000 "p" 1).1).results
      (genRequestId 1 1000) = none :=
  ⟨rfl, rfl, rfl⟩

/-- C6 amended: only an admitted submission creates a `"queued"` result
record (written after the enqueue, within the same atomic section); a
rejected submission performs no write at all — no record is created, the
state is untouched, and nothing reaches the worker. -/
theorem C6_record_only_on_admission (s : SysState) (t rand : Nat) (message : String)
    (priority : Nat) :
    (s.queueSize < MAX_QUEUE_SIZE →
      lookupRes (process_prompt_submit s t rand message priority).1.results
        (genRequestId t rand) = some Status.queued) ∧
    (s.queueSize ≥ MAX_QUEUE_SIZE →
      (process_prompt_submit s t rand message priority).1 = s) := by
  constructor
  · intro h
    simp only [process_prompt_submit]
    rw [if_neg (by omega)]
    simp only []
    rw [lookup_insert, if_pos rfl]
  · intro h
    simp only [process_prompt_submit]
    rw [if_pos h]

/-- C6 amended witness: both branches at concrete states. -/
theorem C6_record_only_on_admission_witness :
    lookupRes (process_prompt_submit initState 0 1000 "p" 1).1.results
      (genRequestId 0 1000) = some Status.queued ∧
    (process_prompt_submit cappedState 1 1000 "p" 1).1 = cappedState :=
  ⟨(C6_record_only_on_admission initState 0 1000 "p" 1).1 (by decide),
    (C6_record_only_on_admission cappedState 1 1000 "p" 1).2 (by decide)⟩

/-- C9: the identifier `f"req_{int(time.time())}_{random.randint(1000, 9999)}"`
does not distinguish two submissions made in the same integral second that
draw the same random integer.  Starting from module start, two such
admissions both receive `"req_0_1000"`: both requests are live (the queue
holds two items, the counter reads 2), yet the result store holds a single
record — the second submission overwrote the first's `ResultRecord`,
contradicting identifier uniqueness for live requests. -/
theorem C9_identifier_collision :
    genRequestId 0 1000 = "req_0_1000" ∧
    (process_prompt_submit (process_prompt_submit initState 0 1000 "first" 1).1
        0 1000 "second" 1).1.admitted = ["req_0_1000", "req_0_1000"] ∧
    (process_prompt_submit (process_prompt_submit initState 0 1000 "first" 1).1
        0 1000 "second" 1).1.queueSize = 2 ∧
    (process_prompt_submit (process_prompt_submit initState 0 1000 "first" 1).1
        0 1000 "second" 1).1.results = [("req_0_1000", Status.queued)] :=
  ⟨rfl, rfl, rfl, rfl⟩

/-- A demonstration upstream oracle: every attempt of every request
succeeds with answer `"ans"`. -/
def demoUpstream : String → Nat → Outcome := fun _ _ => Outcome.success "ans"

/-- One admission from module start at clock 0 with random draw 1000. -/
def collideS1 : SysState := (process_prompt_submit initState 0 1000 "p" 1).1

/-- …the worker dequeues it… -/
def collideS2 : SysState := (stepFn ["k"] demoUpstream SLabel.takeL collideS1).getD initState

/-- …and writes its terminal `"completed"` record. -/
def collideS3 : SysState := (stepFn ["k"] demoUpstream SLabel.finishL collideS2).getD initState

/-- A later submission in the same integral second drawing the same random
integer: its generated identifier collides with the completed record's. -/
def collideS4 : SysState := (process_prompt_submit collideS3 0 1000 "q" 1).1

/-- The worker's pacing step taken from `collideS3`. -/
def collideS5 : SysState := (stepFn ["k"] demoUpstream SLabel.pauseL collideS3).getD initState

/-- C2 counterexample: after a request completes (terminal `"completed"`
record for `"req_0_1000"`), a later `process_prompt` call whose generated
identifier collides sets that same record back to `"queued"`
(`gemini_utils.py` line 301 assigns unconditionally) — a terminal record
regresses to Queued via the submit operation, contradicting the claim. -/
theorem C2_terminal_regress_counterexample :
    lookupRes collideS3.results "req_0_1000" = some (Status.completed "ans" 0) ∧
    (Status.completed "ans" 0).isTerminal = true ∧
    lookupRes collideS4.results "req_0_1000" = some Status.queued :=
  ⟨rfl, rfl, rfl⟩

/-- C2 amended: once a record is terminal, no step of the system sets it
back to `"queued"` — except a later submission whose freshly generated
identifier collides with that record's identifier.  Worker writes are
always terminal, the wait-loop writes only `"timeout"`, the collector and
reaper only delete, and a submission with a non-colliding identifier
leaves the record untouched. -/
theorem C2_no_regress_without_collision (api_keys : List String)
    (upstream : String → Nat → Outcome) (l : SLabel) (s s' : SysState) (id : String)
    (hreach : Reachable api_keys upstream s)
    (hstep : stepFn api_keys upstream l s = some s')
    (hterm : ∃ st, lookupRes s.results id = some st ∧ st.isTerminal = true)
    (hfresh : ∀ t rand message priority, l = SLabel.submitL t rand message priority →
      genRequestId t rand ≠ id) :
    lookupRes s'.results id ≠ some Status.queued := by
  obtain ⟨st, hlk, hst⟩ := hterm
  have hnodup := reachable_nodup_keys api_keys upstream s hreach
  have hterm_ne : lookupRes s.results id ≠ some Status.queued := by
    rw [hlk]
    intro hcon
    injection hcon with hcon
    subst hcon
    simp [Status.isTerminal] at hst
  cases l with
  | submitL t rand message priority =>
      have hne := hfresh t rand message priority rfl
      simp only [stepFn] at hstep
      injection hstep with hstep
      subst hstep
      simp only [process_prompt_submit]
      split
      · exact hterm_ne
      · rw [lookup_insert, if_neg hne]
        exact hterm_ne
  | takeL =>
      simp only [stepFn] at hstep
      split at hstep
      · injection hstep with hstep
        subst hstep
        exact hterm_ne
      · exact absurd hstep (by simp)
  | finishL =>
      simp only [stepFn] at hstep
      split at hstep
      · next r hw =>
          injection hstep with hstep
          subst hstep
          simp only []
          rw [lookup_insert]
          split
          · intro hcon
            injection hcon with hcon
            cases hres : process_prompt_direct api_keys (upstream r.payload) r.payload <;>
              rw [hres] at hcon <;> simp [statusOfResult] at hcon
          · exact hterm_ne
      · exact absurd hstep (by simp)
  | pauseL =>
      simp only [stepFn] at hstep
      split at hstep
      · injection hstep with hstep
        subst hstep
        exact hterm_ne
      · exact absurd hstep (by simp)
  | timeoutL j =>
      simp only [stepFn] at hstep
      split at hstep
      · injection hstep with hstep
        subst hstep
        simp only []
        rw [lookup_insert]
        split
        · intro hcon
          injection hcon with hcon
          exact Status.noConfusion hcon
        · exact hterm_ne
      · injection hstep with hstep
        subst hstep
        exact hterm_ne
  | collectL j =>
      simp only [stepFn] at hstep
      split at hstep
      · split at hstep
        · injection hstep with hstep
          subst hstep
          simp only []
          by_cases hj : j = id
          · subst hj
            rw [nodup_lookup_erase_self _ _ hnodup]
            exact Option.noConfusion
          · rw [lookup_erase_ne _ _ _ hj]
            exact hterm_ne
        · exact absurd hstep (by simp)
      · exact absurd hstep (by simp)
  | reapL j =>
      simp only [stepFn] at hstep
      injection hstep with hstep
      subst hstep
      simp only []
      by_cases hj : j = id
      · subst hj
        rw [nodup_lookup_erase_self _ _ hnodup]
        exact Option.noConfusion
      · rw [lookup_erase_ne _ _ _ hj]
        exact hterm_ne

/-- C2 amended witness: the worker's pacing step after the completed
request of `collideS3` leaves the terminal record non-queued. -/
theorem C2_no_regress_witness :
    lookupRes collideS5.results "req_0_1000" ≠ some Status.queued := by
  have h1 : Reachable ["k"] demoUpstream collideS1 :=
    Reachable.step initState collideS1 (SLabel.submitL 0 1000 "p" 1) Reachable.init rfl
  have h2 : Reachable ["k"] demoUpstream collideS2 :=
    Reachable.step collideS1 collideS2 SLabel.takeL h1 rfl
  have h3 : Reachable ["k"] demoUpstream collideS3 :=
    Reachable.step collideS2 collideS3 SLabel.finishL h2 rfl
  exact C2_no_regress_without_collision ["k"] demoUpstream SLabel.pauseL collideS3 collideS5
    "req_0_1000" h3 rfl ⟨Status.completed "ans" 0, rfl, rfl⟩
    (fun t rand message priority h => SLabel.noConfusion h)

/-- C3: the retry coordinator `process_prompt_direct` performs at most
`MAX_RETRIES = 3` loop iterations (upstream call attempts) per request;
and whenever an attempt is classified `PayloadTooLarge` (upstream error
text containing `"too many tokens"`) — all earlier attempts having failed
retryably — the coordinator raises `ValueError` immediately after that
attempt, with no further retries; in particular a first-attempt
`PayloadTooLarge` yields exactly one attempt in total. -/
theorem C3_retry_budget (api_keys : List String) (upstream : Nat → Outcome)
    (message : String) :
    attemptsOf (process_prompt_direct api_keys upstream message) ≤ MAX_RETRIES ∧
    (∀ i, api_keys ≠ [] → i < MAX_RETRIES →
      (∀ j, j < i → isRetryableOutcome (effAttempt api_keys upstream j) = true) →
      isPTLOutcome (effAttempt api_keys upstream i) = true →
      process_prompt_direct api_keys upstream message
        = DirectResult.err ErrKind.valueError tooManyTokensMsg (i + 1)) := by
  constructor
  · simpa using attempts_runDirectLoop_le api_keys upstream message MAX_RETRIES 0
  · intro i hk hi hret hptl
    exact runLoop_ptl api_keys upstream message hk MAX_RETRIES 0 i rfl (Nat.zero_le i) hi
      (fun j _ hj => hret j hj) hptl

/-- C3 witness: an upstream that reports "Too many tokens to process" on
the first attempt makes the coordinator stop after exactly one attempt. -/
theorem C3_retry_budget_witness :
    attemptsOf (process_prompt_direct ["k"]
        (fun _ => Outcome.failure "Too many tokens to process") "m") ≤ MAX_RETRIES ∧
    process_prompt_direct ["k"] (fun _ => Outcome.failure "Too many tokens to process") "m"
      = DirectResult.err ErrKind.valueError tooManyTokensMsg 1 :=
  ⟨(C3_retry_budget ["k"] (fun _ => Outcome.failure "Too many tokens to process") "m").1,
    (C3_retry_budget ["k"] (fun _ => Outcome.failure "Too many tokens to process") "m").2 0
      (by simp) (by decide) (fun j hj => absurd hj (Nat.not_lt_zero j)) (by decide)⟩

/-- C4: the limiter `request_semaphore` is sized to exactly
`2 × len(api_keys)` credentials (3 when none are configured); along any
event sequence valid for `asyncio.Semaphore` of that capacity, the
outstanding permits at every instant never exceed the capacity; and a
retry-coordinator invocation of `n` attempts — whose `async with` block
acquires one permit before its first attempt and releases it after its
last — holds exactly one permit at every instant of every attempt. -/
theorem C4_concurrency_limiter (api_keys : List String) (es : List SemEvent)
    (k n j : Nat) :
    (api_keys ≠ [] → MAX_CONCURRENT_REQUESTS api_keys = 2 * api_keys.length) ∧
    (api_keys = [] → MAX_CONCURRENT_REQUESTS api_keys = 3) ∧
    (semValidFrom (MAX_CONCURRENT_REQUESTS api_keys) 0 es = true →
      semHeldFrom 0 (es.take k) ≤ MAX_CONCURRENT_REQUESTS api_keys) ∧
    (1 ≤ j → j ≤ n + 1 → invHeld ((invocationEvents n).take j) = 1) := by
  refine ⟨?_, ?_, ?_, ?_⟩
  · intro h
    cases api_keys with
    | nil => exact absurd rfl h
    | cons a as => simp [MAX_CONCURRENT_REQUESTS, Nat.mul_comm]
  · intro h
    subst h
    rfl
  · intro hv
    exact semHeld_take_le (MAX_CONCURRENT_REQUESTS api_keys) es 0 k (Nat.zero_le _) hv
  · intro h1 h2
    exact invHeld_take_eq_one n j h1 h2

/-- C4 witness: one configured credential gives capacity 2; a valid
acquire–release trace stays within it; a 2-attempt invocation holds one
permit at its first attempt. -/
theorem C4_concurrency_limiter_witness :
    MAX_CONCURRENT_REQUESTS ["a"] = 2 * (["a"] : List String).length ∧
    MAX_CONCURRENT_REQUESTS [] = 3 ∧
    semHeldFrom 0 (([SemEvent.acquire, SemEvent.release]).take 1)
      ≤ MAX_CONCURRENT_REQUESTS ["a"] ∧
    invHeld ((invocationEvents 2).take 2) = 1 :=
  ⟨(C4_concurrency_limiter ["a"] [SemEvent.acquire, SemEvent.release] 1 2 2).1 (by simp),
    (C4_concurrency_limiter [] [] 0 0 1).2.1 rfl,
    (C4_concurrency_limiter ["a"] [SemEvent.acquire, SemEvent.release] 1 2 2).2.2.1
      (by decide),
    (C4_concurrency_limiter ["a"] [SemEvent.acquire, SemEvent.release] 1 2 2).2.2.2
      (by decide) (by decide)⟩

/-- C5 counterexample: with an empty credential pool the module still loads
(the limiter is sized 3 — line 69's fallback — instead of startup being
refused), a request CAN be submitted (the admission section admits it and
returns its identifier), the worker loop still runs (its dequeue step is
enabled), and the request IS processed — to a `ValueError` after a single
attempt, because the credential rotation at line 174 re-raises the
`get_random_api_key` failure.  This contradicts "fails at startup, never
enters the queue/worker loop, no request can be submitted or processed". -/
theorem C5_startup_counterexample :
    MAX_CONCURRENT_REQUESTS [] = 3 ∧
    (process_prompt_submit initState 0 1000 "p" 1).2 = Except.ok "req_0_1000" ∧
    (stepFn [] (fun _ _ => Outcome.failure "x") SLabel.takeL
        (process_prompt_submit initState 0 1000 "p" 1).1).isSome = true ∧
    process_prompt_direct [] (fun _ => Outcome.failure "x") "p"
      = DirectResult.err ErrKind.valueError noKeysMsg 1 :=
  ⟨rfl, rfl, rfl, rfl⟩

/-- C5 amended: an empty credential pool at startup is logged but NOT
fatal: the system still starts and admits submissions; every credential
pick fails with the Unavailable `ValueError` (`"No Gemini API keys
available"`), so each processed request fails with that `ValueError` after
a single attempt (the first retry's credential rotation re-raises it),
rather than the system refusing to start. -/
theorem C5_empty_pool_amended (upstream : Nat → Outcome) (message : String)
    (pick : Nat) (s : SysState) (t rand : Nat) (p : String) (pr : Nat)
    (h : s.queueSize < MAX_QUEUE_SIZE) :
    get_random_api_key [] pick = Except.error noKeysMsg ∧
    (process_prompt_submit s t rand p pr).2 = Except.ok (genRequestId t rand) ∧
    process_prompt_direct [] upstream message
      = DirectResult.err ErrKind.valueError noKeysMsg 1 := by
  refine ⟨rfl, ?_, rfl⟩
  simp only [process_prompt_submit]
  rw [if_neg (by omega)]

/-- C5 amended witness at concrete inputs. -/
theorem C5_empty_pool_amended_witness :
    get_random_api_key [] 0 = Except.error noKeysMsg ∧
    (process_prompt_submit initState 0 1000 "p" 1).2 = Except.ok (genRequestId 0 1000) ∧
    process_prompt_direct [] (fun _ => Outcome.success "x") "m"
      = DirectResult.err ErrKind.valueError noKeysMsg 1 :=
  C5_empty_pool_amended (fun _ => Outcome.success "x") "m" 0 initState 0 1000 "p" 1
    (by decide)

/-- C7 counterexample: an upstream that times out on all three attempts
makes `process_prompt_direct` raise `TimeoutError`, which the worker
records as `error_type = "TimeoutError"` and the waiting facade re-raises
as `TimeoutError`; the facade's own local-wait timeout (default 120 s)
also raises `TimeoutError`.  The two delivered error kinds are the very
same exception class, not distinct kinds — contradicting the claim that
`RequestTimeout` is a distinct, distinguishable kind from
`UpstreamTimeout`. -/
theorem C7_timeout_kinds_counterexample :
    process_prompt_direct ["k"] (fun _ => Outcome.failure "timeout") "p"
      = DirectResult.err ErrKind.timeoutError upstreamTimeoutMsg 3 ∧
    (facadeRethrow (errorTypeName ErrKind.timeoutError) upstreamTimeoutMsg).1
      = ErrKind.timeoutError ∧
    (facadeLocalTimeout 120).1 = ErrKind.timeoutError ∧
    (facadeLocalTimeout 120).1
      = (facadeRethrow (errorTypeName ErrKind.timeoutError) upstreamTimeoutMsg).1 :=
  ⟨rfl, rfl, rfl, rfl⟩

/-- C7 amended: both the local wait timeout and the retry-exhausted
upstream timeout reach the caller as the SAME exception class
(`TimeoutError`); the two outcomes are distinguishable only by their
message strings, which do differ (the local message at the default 120 s
timeout differs from the fixed upstream-timeout message). -/
theorem C7_timeout_same_kind_distinct_messages :
    (facadeLocalTimeout 120).1 = ErrKind.timeoutError ∧
    facadeRethrow "TimeoutError" upstreamTimeoutMsg
      = (ErrKind.timeoutError, upstreamTimeoutMsg) ∧
    (facadeLocalTimeout 120).2 ≠ upstreamTimeoutMsg := by
  refine ⟨rfl, rfl, ?_⟩
  decide

/-- `Modelled from the spec:` the token-estimate formula of §4.2,
`(len(payload) + len(answer)) / 4`, in integer arithmetic — stated here
only to compare against the source's computation. -/
def specTokenEstimate (payload answer : String) : Nat :=
  (payload.length + answer.length) / 4

/-- C8 counterexample: for payload `"ab"` and answer `"cd"` the code
(line 157: `len(message) // 4 + len(answer) // 4`) returns token estimate
0, while the spec's formula `(len(payload) + len(answer)) / 4` gives 1 —
the two integer expressions are not equal. -/
theorem C8_token_estimate_counterexample :
    process_prompt_direct ["k"] (fun _ => Outcome.success "cd") "ab"
      = DirectResult.ok "cd" 0 1 ∧
    specTokenEstimate "ab" "cd" = 1 :=
  ⟨rfl, rfl⟩

/-- C8 amended: every successful upstream call returns the token estimate
`len(payload) // 4 + len(answer) // 4` — each length floored separately
before the addition, not the flooring of the sum. -/
theorem C8_token_estimate_amended (api_keys : List String) (upstream : Nat → Outcome)
    (message answer : String) (tokens n : Nat)
    (h : process_prompt_direct api_keys upstream message
      = DirectResult.ok answer tokens n) :
    tokens = message.length / 4 + answer.length / 4 :=
  runLoop_tokens api_keys upstream message MAX_RETRIES 0 answer tokens n h

/-- C8 amended witness: payload `"xyzab"`, answer `"abcd"`: 5/4 + 4/4 = 2. -/
theorem C8_token_estimate_amended_witness :
    (2 : Nat) = "xyzab".length / 4 + "abcd".length / 4 :=
  C8_token_estimate_amended ["k"] (fun _ => Outcome.success "abcd") "xyzab" "abcd" 2 1 rfl

/-- Trace for the C10 counterexample: admit request A (`"req_0_1000"`),
then request B (`"req_0_1001"`)… -/
def fifoS2 : SysState :=
  (process_prompt_submit (process_prompt_submit initState 0 1000 "a" 1).1 0 1001 "b" 1).1

/-- …the worker dequeues A and starts processing it… -/
def fifoS3 : SysState := (stepFn ["k"] demoUpstream SLabel.takeL fifoS2).getD initState

/-- …and B's waiting producer hits its local timeout, marking B's record
`"timeout"` while A is still in flight. -/
def fifoS4 : SysState :=
  (stepFn ["k"] demoUpstream (SLabel.timeoutL "req_0_1001") fifoS3).getD initState

/-- C10 counterexample: request B, admitted after A, reaches a terminal
status (`"timeout"`, written by its waiting producer's local-timeout
branch at line 347) while the earlier-admitted A is still unprocessed
(its record still `"queued"`) — so queued requests do NOT reach terminal
states in FIFO admission order once waiter timeouts are taken into
account. -/
theorem C10_fifo_terminal_counterexample :
    fifoS4.admitted = ["req_0_1000", "req_0_1001"] ∧
    lookupRes fifoS4.results "req_0_1001" = some Status.timeout ∧
    Status.timeout.isTerminal = true ∧
    lookupRes fifoS4.results "req_0_1000" = some Status.queued :=
  ⟨rfl, rfl, rfl, rfl⟩

/-- C10 amended: the single worker is fully serialized — in every reachable
state the worker's terminal writes are an initial segment of the admission
order (so the worker writes terminal records strictly in FIFO admission
order), at most one queued request is ever in flight, and the worker can
dequeue only from its idle phase, i.e. only after the previous request's
entire retry cycle and the 0.5 s pacing pause have finished.  (Only
worker-written terminal states follow admission order; a waiting
producer's local timeout can mark a later request terminal out of order,
as the counterexample shows.) -/
theorem C10_worker_serialization (api_keys : List String)
    (upstream : String → Nat → Outcome) (s : SysState)
    (h : Reachable api_keys upstream s) :
    (∃ rest, s.written ++ rest = s.admitted) ∧
    (inFlightIds s.worker).length ≤ 1 ∧
    (∀ s', stepFn api_keys upstream SLabel.takeL s = some s' →
      s.worker = WorkerPhase.idle) := by
  refine ⟨?_, ?_, ?_⟩
  · refine ⟨inFlightIds s.worker ++ s.queue.map Request.id, ?_⟩
    rw [reachable_order api_keys upstream s h]
    simp [List.append_assoc]
  · cases s.worker <;> simp [inFlightIds]
  · intro s' hstep
    simp only [stepFn] at hstep
    split at hstep
    · next r rest hw hq => exact hw
    · exact absurd hstep (by simp)

/-- C10 amended witness at the initial state. -/
theorem C10_worker_serialization_witness :
    (∃ rest, initState.written ++ rest = initState.admitted) ∧
    (inFlightIds initState.worker).length ≤ 1 ∧
    (∀ s', stepFn [] (fun _ _ => Outcome.success "") SLabel.takeL initState = some s' →
      initState.worker = WorkerPhase.idle) :=
  C10_worker_serialization [] (fun _ _ => Outcome.success "") initState Reachable.init

end GeminiUtils
